import Mathlib

/-!
Shallow embedding of the Rust-Learning repository (week1 examples) and
proofs of its specification's claims.

Sources embedded:
  - src/week1/DataTypes/src/main.rs : the function longest_name and the
    demonstration main (string append, assert_eq, byte slicing, fixed-size
    arrays, direct indexing, the Option-returning get accessor).
  - src/week1/variables/src/main.rs : the Message enum with its exhaustive
    matches, a numeric match, two if-let inspections, and that main.

Rust strings are embedded as Lean String; all string literals in the code
are ASCII, so character positions and byte positions coincide and
String.length faithfully models the element count the spec speaks of.
Potentially-aborting Rust operations (assert_eq, byte-range slicing,
direct indexing) are embedded as Except-valued checks; an abort of the
process is Except.error, normal termination is Except.ok with the list of
printed lines.
-/

/-- Embedding of longest_name from src/week1/DataTypes/src/main.rs:
if first.len() > second.len() then first else second. -/
def longest_name (first second : String) : String :=
  if first.length > second.length then first else second

/-- Embedding of longest_name with every potentially-aborting operation
routed through Except. The Rust body consists only of str::len, an integer
comparison and returning one of the borrowed inputs, none of which can
fail, so the checked embedding always succeeds with the pure result. -/
def longest_nameChecked (first second : String) : Except String String :=
  Except.ok (if first.length > second.length then first else second)

/-- Embedding of the slice accessor get (returns Option) used as
fruits.get(1) and fruits.get(20) in src/week1/DataTypes/src/main.rs. -/
def getAt {α : Type} : List α → Nat → Option α
  | [], _ => none
  | x :: _, 0 => some x
  | _ :: xs, n + 1 => getAt xs n

/-- Embedding of direct indexed access arr[i], which aborts the process
when the index is out of bounds. -/
def indexChecked {α : Type} (l : List α) (i : Nat) : Except String α :=
  match getAt l i with
  | some x => Except.ok x
  | none => Except.error "index out of bounds"

/-- Embedding of the byte-range string slice &s[lo..hi], which aborts when
the range is out of bounds (all literals in the code are ASCII, so every
byte index is a character boundary). -/
def sliceChecked (s : String) (lo hi : Nat) : Except String String :=
  if lo ≤ hi ∧ hi ≤ s.length then
    Except.ok (String.mk ((s.data.drop lo).take (hi - lo)))
  else
    Except.error "byte index out of bounds"

/-- The fruits array from src/week1/DataTypes/src/main.rs. -/
def fruits : List String := ["apple", "banana", "cherry", "date", "elderberry"]

/-- Rust Debug formatting of a &str value, as printed by the trailing
println calls of DataTypes main (no escaping is needed for the inputs
occurring in the code). -/
def debugFmtStr (s : String) : String := "\"" ++ s ++ "\""

/-- Rust Debug formatting of an array of Strings, as printed by
println("all values of fruits ...", fruits). -/
def debugFmtList (xs : List String) : String :=
  "[" ++ String.intercalate ", " (xs.map debugFmtStr) ++ "]"

/-- Embedding of main from src/week1/DataTypes/src/main.rs, statement by
statement. The result is Except.error on any aborted assertion, slice or
index, and Except.ok with the printed lines on normal termination. -/
def mainDataTypes : Except String (List String) := do
  let max_value_i32 : Int := 2147483647
  let max_value_u32 : Nat := 4294967295
  let owned_string : String := ("Hello " ++ "world") ++ "!"
  if owned_string = "Hello world!" then pure () else
    Except.error "assertion failed: owned_string == Hello world!"
  let string_slice ← sliceChecked owned_string 2 5
  let initialize_array : List Int := List.replicate 10 0
  let ninth ← indexChecked initialize_array 9
  let first ← indexChecked fruits 0
  let line_get1 :=
    match getAt fruits 1 with
    | some fruit => "The second fruit is " ++ fruit
    | none => "No fruit at this index"
  let line_get20 :=
    match getAt fruits 20 with
    | some fruit => "The second fruit is " ++ fruit
    | none => "No fruit at this index 12"
  let result := longest_name "anil" "garima"
  let first_name : String := "anil"
  let second_name : String := "anilc"
  let result2 := longest_name first_name second_name
  pure
    [ "different max value of i32 and u32"
    , "max value of i32 is " ++ toString max_value_i32
    , "max value of u32 is " ++ toString max_value_u32
    , "difference between String and &str"
    , owned_string
    , "sliced string: " ++ string_slice
    , toString ninth
    , "the first fruit is " ++ first
    , line_get1
    , line_get20
    , "all values of fruits " ++ debugFmtList fruits
    , debugFmtStr result
    , debugFmtStr result2 ]

/-- Embedding of the Message enum from src/week1/variables/src/main.rs:
a no-payload alternative Quit and a two-field alternative Move. -/
inductive Message : Type where
  | Quit : Message
  | Move : Int → Int → Message

/-- The eliminator the Rust match on Message denotes: given one handler
per alternative, the constructed alternative selects its handler, with
the Move fields bound as the handler's arguments. -/
def matchMessage {α : Type} (m : Message) (onQuit : α) (onMove : Int → Int → α) : α :=
  match m with
  | Message.Quit => onQuit
  | Message.Move x y => onMove x y

/-- The concrete match arms used in src/week1/variables/src/main.rs,
producing the printed line. -/
def processMessage (m : Message) : String :=
  matchMessage m "Quit" (fun x y => "Move to " ++ toString x ++ " " ++ toString y)

/-- The numeric match of src/week1/variables/src/main.rs: arms 1, 2|3
and the wildcard. -/
def matchNumber (number : Int) : String :=
  if number = 1 then "1st matched:  value is " ++ toString number
  else if number = 2 ∨ number = 3 then "either 2 or 3"
  else "something else"

/-- Embedding of main from src/week1/variables/src/main.rs. It contains
no fallible operation; Except records the exit status regardless. -/
def mainVariables : Except String (List String) := do
  let a : Int := 2
  let b : Char := 'b'
  let number : Int := 3
  let message := Message.Move 2 3
  let quite_message := Message.Quit
  let favorite_color : Option String := some "blue"
  let some_value : Option Int := some 43
  let color_lines : List String :=
    if favorite_color = some "blue" then ["your favriote color is blue."] else []
  let unpack_lines : List String :=
    match some_value with
    | some x => ["unpacked value is " ++ toString x]
    | none => []
  pure
    ([ "Hello, world!"
     , "a " ++ toString a ++ ", b " ++ b.toString
     , matchNumber number
     , processMessage message
     , processMessage quite_message ] ++ color_lines ++ unpack_lines)

/-- Helper: getAt returns some exactly on in-bounds indices. -/
theorem getAt_isSome_iff {α : Type} (l : List α) (i : Nat) :
    (getAt l i).isSome ↔ i < l.length := by
  induction l generalizing i with
  | nil => simp [getAt]
  | cons x xs ih =>
    cases i with
    | zero => simp [getAt]
    | succ n =>
      simp only [getAt, List.length_cons]
      rw [ih]
      omega

/-- C1: for every pair of text views with len(first) > len(second), the
longer view is returned regardless of argument order: longest_name a b = a
and longest_name b a = a whenever a has strictly more elements than b. -/
theorem longest_name_longer_wins (a b : String) (h : a.length > b.length) :
    longest_name a b = a ∧ longest_name b a = a := by
  constructor
  · simp [longest_name, h]
  · have h2 : ¬ b.length > a.length := by omega
    simp [longest_name, h2]

/-- Witness for C1 at the concrete pair from the code: "garima" (6
elements) against "anil" (4 elements). -/
theorem longest_name_longer_wins_witness :
    String.length "garima" > String.length "anil" ∧
    (longest_name "garima" "anil" = "garima" ∧
     longest_name "anil" "garima" = "garima") :=
  ⟨by decide, longest_name_longer_wins "garima" "anil" (by decide)⟩

/-- C2: on equal element counts longest_name returns its second argument;
the zero-length edge case is the witness below. -/
theorem longest_name_tie_second (a b : String) (h : a.length = b.length) :
    longest_name a b = b := by
  have h2 : ¬ a.length > b.length := by omega
  simp [longest_name, h2]

/-- Witness for C2 at the zero-length edge case: both inputs empty, the
second (empty) argument is returned. -/
theorem longest_name_tie_second_witness :
    String.length "" = String.length "" ∧ longest_name "" "" = "" :=
  ⟨rfl, longest_name_tie_second "" "" rfl⟩

/-- C3: longest_name is total: the checked embedding, in which every
potentially-aborting operation is an Except check, succeeds on every pair
of inputs with the pure result — no input makes it fail. -/
theorem longest_name_total (a b : String) :
    longest_nameChecked a b = Except.ok (longest_name a b) := rfl

/-- C4: the Option-returning accessor get yields a present value exactly
on in-bounds indices: on the 5-element fruits array index 1 is
some "banana", index 20 is none, and in general presence holds iff the
index is below the length. -/
theorem getAt_in_bounds :
    getAt fruits 1 = some "banana" ∧
    getAt fruits 20 = (none : Option String) ∧
    ∀ {α : Type} (l : List α) (i : Nat), (getAt l i).isSome ↔ i < l.length :=
  ⟨rfl, rfl, fun l i => getAt_isSome_iff l i⟩

/-- C5: matching on a Message value selects exactly the handler of the
constructed alternative and binds its fields: Quit selects the no-payload
handler, and Move 2 3 selects the two-field handler with x bound to 2 and
y bound to 3. -/
theorem matchMessage_selects {α : Type} (onQuit : α) (onMove : Int → Int → α) :
    matchMessage Message.Quit onQuit onMove = onQuit ∧
    matchMessage (Message.Move 2 3) onQuit onMove = onMove 2 3 :=
  ⟨rfl, rfl⟩

/-- C6: the concrete call longest_name "anil" "garima" from main evaluates
to "garima" (4 versus 6 elements). -/
theorem longest_name_anil_garima : longest_name "anil" "garima" = "garima" := by
  decide

/-- C7: the cross-scope scenario: longest_name on the views of the two
owned buffers "anil" and "anilc" returns "anilc" (4 versus 5 elements),
and that result is still used after the inner scope ends — it is the final
line main prints, and main terminates normally. -/
theorem longest_name_cross_scope :
    longest_name "anil" "anilc" = "anilc" ∧
    ∃ out, mainDataTypes = Except.ok out ∧
      out.getLast? = some (debugFmtStr "anilc") := by
  exact ⟨by decide, _, rfl, rfl⟩

/-- C8: both entry points terminate normally with exit status zero: no
assertion, string slice or direct array indexing on the demonstrated paths
aborts, so each checked main evaluates to Except.ok. -/
theorem mains_terminate_ok :
    (∃ out, mainDataTypes = Except.ok out) ∧
    (∃ out2, mainVariables = Except.ok out2) :=
  ⟨⟨_, rfl⟩, ⟨_, rfl⟩⟩

/-- C9: longest_name is deterministic: two runs on equal inputs give equal
outputs, with no dependence on any external state. -/
theorem longest_name_deterministic (a b a2 b2 : String)
    (h1 : a = a2) (h2 : b = b2) :
    longest_name a b = longest_name a2 b2 := by
  rw [h1, h2]

/-- Witness for C9 at the concrete pair from main. -/
theorem longest_name_deterministic_witness :
    longest_name "anil" "garima" = longest_name "anil" "garima" :=
  longest_name_deterministic "anil" "garima" "anil" "garima" rfl rfl

/-- C10: the result of longest_name is always exactly one of its two
inputs, and its element count is the maximum of the two input counts. -/
theorem longest_name_one_of_inputs (a b : String) :
    (longest_name a b = a ∨ longest_name a b = b) ∧
    (longest_name a b).length = max a.length b.length := by
  by_cases h : a.length > b.length
  · simp [longest_name, h]
    omega
  · simp [longest_name, h]
    omega
